import Mathlib

/-!
Shallow embedding of `src/handler.py` (class `TanglinTennisCourtHandler`)
from the tennis-reservations repository, together with theorems settling
the specification claims about it.

Modelling conventions:
* Python exceptions are modelled with `Except String`: a computation that
  may raise returns `Except.error msg`, a normal return is `Except.ok v`.
* Browser state (which DOM elements exist, what their text is, whether a
  click sequence reaches the success banner) is passed in explicitly as
  data; the handler's control flow over that data is translated directly
  from the source.
* Wall-clock times are tuples of natural numbers (day index, hour, minute,
  second, microsecond).
-/

set_option autoImplicit false

namespace TanglinTennis

deriving instance DecidableEq for Except

/-! ## Hour-of-day to slot-label conversion (`_reserve_time`, handler.py lines 159-164)

```python
if time < 12:
    time_text = f'{time}:00 AM'
elif time == 12:
    time_text = '12:00 PM'
else:
    time_text = f'{time % 12}:00 PM'
```
-/

/-- Translation of the hour-to-label conversion at the top of
`_reserve_time` (handler.py lines 159-164). -/
def timeText (time : Nat) : String :=
  if time < 12 then
    toString time ++ ":00 AM"
  else if time = 12 then
    "12:00 PM"
  else
    toString (time % 12) ++ ":00 PM"

/-! ## The per-element booking loop of `_reserve_time` (handler.py lines 166-186)

Each matching slot element is modelled by the outcome of its try-block body
(clicking the box, waiting for Book Now, clicking it, waiting for the
success banner): `Except.ok ()` when the body reaches the success banner,
`Except.error msg` when any of those steps raises. -/

/-- Translation of the `for e in elements: try ... except: pass` loop of
`_reserve_time` (handler.py lines 170-186): the first element whose body
succeeds yields `True`; an element whose body raises is skipped; if no
element succeeds the loop falls through to `return False`. -/
def attemptElements : List (Except String Unit) → Bool
  | [] => false
  | Except.ok _ :: _ => true
  | Except.error _ :: rest => attemptElements rest

/-- Translation of `_reserve_time` (handler.py lines 158-186) given the
page's slot boxes as pairs of their displayed text and the outcome of the
per-element try-block body. Mirrors the list comprehension on line 168
filtering `div.start-time` elements by `e.text == time_text`. -/
def reserveTime (time : Nat) (slots : List (String × Except String Unit)) : Bool :=
  attemptElements ((slots.filter (fun p => p.1 == timeText time)).map Prod.snd)

/-- Translation of `_reserve_time` including the possibility that locating
the slot elements themselves raises (handler.py line 168): in that case the
exception propagates out of `_reserve_time`. -/
def reserveTimeE (time : Nat) (page : Except String (List (String × Except String Unit))) :
    Except String Bool :=
  match page with
  | Except.error e => Except.error e
  | Except.ok slots => Except.ok (reserveTime time slots)

/-! ## The candidate-times loop of `make_reservations` (handler.py lines 35-47)

```python
failures = []
for t in times:
    try:
        success = self._reserve_time(t)
        if success:
            print("Made a reservation at time {t:02d}:00. Check your email for more information")
            return
    except Exception:
        failures.append(t)

if len(failures) > 0:
    print("Did not manage to book times: \n" + ...)
```

Each candidate hour is paired with the outcome of its `_reserve_time` call:
`Except.ok true` (reached the success banner), `Except.ok false` (returned
without success), or `Except.error msg` (raised). -/

/-- Text printed on line 40 of handler.py. The source string has no
`f` prefix, so the `\x7bt:02d\x7d` placeholder is literal text: the printed
message is the same for every booked hour. -/
def successMessage (_t : Nat) : String :=
  "Made a reservation at time \x7bt:02d\x7d:00. Check your email for more information"

/-- Observable outcome of one `make_reservations` run (handler.py
lines 35-47): the hour booked (if any), the hours whose `_reserve_time`
call was made, the `failures` list, and the failure list printed on
line 47 (`none` when the print on line 47 is not reached or skipped). -/
structure RunResult where
  booked : Option Nat
  attempted : List Nat
  failures : List Nat
  printedFailures : Option (List Nat)
deriving DecidableEq

/-- Translation of the `for t in times` loop of `make_reservations`
(handler.py lines 35-47), threading the `failures` accumulator and
recording which hours were attempted. `Except.ok true` hits the
`return` on line 41 (skipping the failure print); `Except.ok false` falls
through to the next hour without touching `failures`; `Except.error`
is caught on line 43 and appends the hour to `failures`. -/
def makeReservationsGo : List (Nat × Except String Bool) → List Nat → List Nat → RunResult
  | [], att, fs => ⟨none, att, fs, if fs.length > 0 then some fs else none⟩
  | (t, r) :: rest, att, fs =>
    match r with
    | Except.ok true => ⟨some t, att ++ [t], fs, none⟩
    | Except.ok false => makeReservationsGo rest (att ++ [t]) fs
    | Except.error _ => makeReservationsGo rest (att ++ [t]) (fs ++ [t])

/-- The candidate-times loop of `make_reservations` started with the empty
`failures` list (handler.py line 35). -/
def makeReservations (atts : List (Nat × Except String Bool)) : RunResult :=
  makeReservationsGo atts [] []

/-- The candidate hours whose `_reserve_time` call raised, in list order:
exactly the hours line 44 of handler.py appends to `failures`. -/
def raisedHours : List (Nat × Except String Bool) → List Nat
  | [] => []
  | (t, Except.error _) :: rest => t :: raisedHours rest
  | (_, Except.ok _) :: rest => raisedHours rest

/-! ## The opening-time computation of `_wait` (handler.py lines 88-94)

```python
hour, minute, second = map(int, till.split(':'))
now = pd.Timestamp.now()
if now.hour >= hour and now.minute >= minute and now.second >= second and now.microsecond > 0:
    opening_time = (now.floor('d') + pd.offsets.Day(1)).replace(hour=hour, minute=minute, second=second)
else:
    opening_time = now.floor('d').replace(hour=hour, minute=minute, second=second)
```
-/

/-- A wall-clock instant: day index plus time of day. -/
structure Clock where
  day : Nat
  hour : Nat
  minute : Nat
  second : Nat
  micro : Nat
deriving DecidableEq

/-- The `opening_time` value computed by `_wait` (microseconds are zeroed
by `floor('d')` followed by `replace`). -/
structure OpeningTime where
  day : Nat
  hour : Nat
  minute : Nat
  second : Nat
deriving DecidableEq

/-- Translation of the `opening_time` computation in `_wait` (handler.py
lines 88-94): the branch condition compares hour, minute and second
componentwise and additionally requires a nonzero microsecond. -/
def openingTime (h m s : Nat) (now : Clock) : OpeningTime :=
  if now.hour ≥ h ∧ now.minute ≥ m ∧ now.second ≥ s ∧ now.micro > 0 then
    ⟨now.day + 1, h, m, s⟩
  else
    ⟨now.day, h, m, s⟩

/-- Modelled from the spec: time of day `(h1, m1, s1, u1)` is strictly
earlier in the day than `(h2, m2, s2, u2)` (lexicographic comparison).
Used to state the claim about `_wait`; the source's branch condition is
`openingTime` above. -/
def specTimeEarlier (h1 m1 s1 u1 h2 m2 s2 u2 : Nat) : Bool :=
  Nat.blt h1 h2 ||
    (Nat.beq h1 h2 && (Nat.blt m1 m2 ||
      (Nat.beq m1 m2 && (Nat.blt s1 s2 ||
        (Nat.beq s1 s2 && Nat.blt u1 u2)))))

/-- Modelled from the spec: an hour of day rendered as two digits, the
reading of the `\x7bt:02d\x7d` placeholder the success message was meant
to format. -/
def twoDigitHour (t : Nat) : String :=
  (if t < 10 then "0" else "") ++ toString t

/-! ## The dropdown loop of `_set_options` (handler.py lines 121-156)

For each dropdown display link (matched by its current text), the code
either skips it (`continue`) when it already shows the requested value, or
clicks it open, clicks the matching sub-option (reloading the slot table),
and raises a `RuntimeError` when no sub-option matches. -/

def outdoorLabel : String := "Tennis Courts - Outdoor Tennis Court."

def indoorLabel : String := "Tennis Courts - Indoor Tennis Court."

def singlesSquashLabel : String := "Squash Courts - Singles Squash Courts"

def doublesSquashLabel : String := "Squash Courts - Doubles Squash Courts"

/-- The court-type label requested by the `indoors` flag (handler.py
lines 126 and 132-133). -/
def courtTypeText (indoors : Bool) : String :=
  if indoors then indoorLabel else outdoorLabel

/-- Translation of `duration_text = f"{duration} hour{'s' if duration > 1 else ''}"`
(handler.py line 141). -/
def durationText (duration : Nat) : String :=
  toString duration ++ " hour" ++ (if duration > 1 then "s" else "")

/-- What processing one dropdown display element did: whether the dropdown
display was clicked, whether the slot table was reloaded (the
`_check_load_okay` wait after clicking a sub-option), and whether a
`RuntimeError` was raised. -/
structure FilterEffect where
  clicked : Bool
  reloaded : Bool
  raised : Bool
deriving DecidableEq

/-- Translation of the body of the `for e in ...` dropdown loop of
`_set_options` (handler.py lines 121-156) for one dropdown display element
with current text `text`, where `options` is the text of the
`li.ng-binding.ng-scope` sub-option elements. -/
def processDropdown (indoors : Bool) (duration : Nat) (options : List String) (text : String) :
    FilterEffect :=
  if text == outdoorLabel || text == indoorLabel ||
      text == singlesSquashLabel || text == doublesSquashLabel then
    if (indoors && text == indoorLabel) || (!indoors && text == outdoorLabel) then
      ⟨false, false, false⟩
    else
      match options.find? (fun s => (indoors && s == indoorLabel) || (!indoors && s == outdoorLabel)) with
      | some _ => ⟨true, true, false⟩
      | none => ⟨true, false, true⟩
  else if text == "1 hour" || text == "2 hours" then
    if text == durationText duration then
      ⟨false, false, false⟩
    else
      match options.find? (fun s => s == durationText duration) with
      | some _ => ⟨true, true, false⟩
      | none => ⟨true, false, true⟩
  else
    ⟨false, false, false⟩

/-! ## `_login` (handler.py lines 49-74) -/

/-- The side-effecting steps `_login` can perform on the browser session,
in source order (handler.py lines 54-69). -/
inductive LoginAction where
  | navigateToLoginPage
  | sendUsername
  | sendPassword
  | clickLoginButton
deriving DecidableEq

/-- Translation of `_login` (handler.py lines 49-74): given the
`_is_logged_in` flag and whether the two `_check_element` waits succeed,
returns the browser actions performed and either the resulting
`_is_logged_in` flag or the raised timeout message. -/
def login (isLoggedIn loginFormLoads signedInDivFound : Bool) :
    List LoginAction × Except String Bool :=
  if isLoggedIn then
    ([], Except.ok isLoggedIn)
  else if !loginFormLoads then
    ([LoginAction.navigateToLoginPage],
     Except.error "Timeout encountered while loading login page")
  else if !signedInDivFound then
    ([LoginAction.navigateToLoginPage, LoginAction.sendUsername,
      LoginAction.sendPassword, LoginAction.clickLoginButton],
     Except.error "Could not identify div that ensures we are logged in")
  else
    ([LoginAction.navigateToLoginPage, LoginAction.sendUsername,
      LoginAction.sendPassword, LoginAction.clickLoginButton],
     Except.ok true)

/-! ## Theorems settling the claims -/

/-- C10: for hour 0 (midnight), `_reserve_time`'s hour-to-label conversion
takes the `time < 12` branch and produces the label `"0:00 AM"`, so
midnight slots are matched against the text `"0:00 AM"`. -/
theorem c10_midnight_label : timeText 0 = "0:00 AM" := by decide

/-- C7: given an empty candidate_times list, `make_reservations` performs
no booking attempt, books nothing, and prints neither a success message
(`booked = none`) nor a failure list (`printedFailures = none`). -/
theorem c7_empty_times : makeReservations [] = ⟨none, [], [], none⟩ := rfl

/-- C9: `_login` is idempotent: when the logged-in flag is already set it
returns immediately, performing no browser action, raising nothing, and
leaving the flag unchanged, regardless of how the page would behave. -/
theorem c9_login_idempotent :
    ∀ (loginFormLoads signedInDivFound : Bool),
      login true loginFormLoads signedInDivFound = ([], Except.ok true) :=
  fun _ _ => rfl

/-- C2 (code bug): the claim says a target time-of-day earlier than the
current time-of-day yields the occurrence on the following day. At target
06:59:56 and current time 10:00:00.000000 the target is earlier in the day,
yet `_wait`'s componentwise condition (`now.minute >= minute` fails, since
0 < 59) selects the `else` branch: the computed `opening_time` is 06:59:56
of the *same* day, an instant already in the past, contradicting the
source's own comment "gets the next opening time for booking". -/
theorem c2_wait_bug :
    specTimeEarlier 6 59 56 0 10 0 0 0 = true ∧
      openingTime 6 59 56 ⟨0, 10, 0, 0, 0⟩ = ⟨0, 6, 59, 56⟩ := by
  exact ⟨rfl, by decide⟩

set_option maxRecDepth 4000 in
/-- C3 (code bug): the success print on handler.py line 40 lacks the `f`
prefix, so the message printed when hour 7 is booked does not contain the
two-digit hour "07" anywhere; indeed the message is the same string for
every booked hour. -/
theorem c3_success_message_bug :
    ¬ ((twoDigitHour 7).data <:+: (successMessage 7).data) ∧
      successMessage 7 = successMessage 15 := by
  exact ⟨by decide, rfl⟩

/-- When no candidate hour succeeds, the candidate-times loop attempts
every hour in order and ends with `failures` extended by exactly the hours
whose attempt raised, matching handler.py lines 35-47. -/
theorem makeReservationsGo_noSuccess (atts : List (Nat × Except String Bool)) :
    ∀ (att fs : List Nat), (∀ p ∈ atts, p.2 ≠ Except.ok true) →
      makeReservationsGo atts att fs =
        ⟨none, att ++ atts.map Prod.fst, fs ++ raisedHours atts,
          if (fs ++ raisedHours atts).length > 0 then some (fs ++ raisedHours atts) else none⟩ := by
  induction atts with
  | nil =>
    intro att fs _h
    simp [makeReservationsGo, raisedHours]
  | cons p rest ih =>
    intro att fs h
    obtain ⟨t, r⟩ := p
    cases r with
    | ok b =>
      cases b with
      | true =>
        exact absurd rfl (h (t, Except.ok true) (List.mem_cons_self _ _))
      | false =>
        have hrest := ih (att ++ [t]) fs (fun q hq => h q (List.mem_cons_of_mem _ hq))
        simpa [makeReservationsGo, raisedHours, List.append_assoc] using hrest
    | error s =>
      have hrest := ih (att ++ [t]) (fs ++ [t]) (fun q hq => h q (List.mem_cons_of_mem _ hq))
      simpa [makeReservationsGo, raisedHours, List.append_assoc] using hrest

/-- When the list of candidate hours splits as a success-free front part
followed by a successful hour `t`, the candidate-times loop returns at `t`
with exactly the front hours and `t` attempted, skipping the failure
print, matching handler.py lines 35-47. -/
theorem makeReservationsGo_firstSuccess (t : Nat) (post : List (Nat × Except String Bool)) :
    ∀ (front : List (Nat × Except String Bool)) (att fs : List Nat),
      (∀ p ∈ front, p.2 ≠ Except.ok true) →
      makeReservationsGo (front ++ (t, Except.ok true) :: post) att fs =
        ⟨some t, att ++ front.map Prod.fst ++ [t], fs ++ raisedHours front, none⟩ := by
  intro front
  induction front with
  | nil =>
    intro att fs _h
    simp [makeReservationsGo, raisedHours]
  | cons p rest ih =>
    intro att fs h
    obtain ⟨u, r⟩ := p
    cases r with
    | ok b =>
      cases b with
      | true =>
        exact absurd rfl (h (u, Except.ok true) (List.mem_cons_self _ _))
      | false =>
        have hrest := ih (att ++ [u]) fs (fun q hq => h q (List.mem_cons_of_mem _ hq))
        simpa [makeReservationsGo, raisedHours, List.append_assoc] using hrest
    | error s =>
      have hrest := ih (att ++ [u]) (fs ++ [u]) (fun q hq => h q (List.mem_cons_of_mem _ hq))
      simpa [makeReservationsGo, raisedHours, List.append_assoc] using hrest

/-- C1 (counterexample): with candidate_times = [7] and the hour-7 attempt
returning without reaching the success banner (`_reserve_time` returns
False, raising nothing), no booking succeeds, yet `make_reservations`
prints no failure list at all and records no failure: line 44 of
handler.py appends to `failures` only when `_reserve_time` raises, so the
claim that every candidate hour appears in the printed failure list is
false. -/
theorem c1_counterexample :
    (makeReservations [(7, Except.ok false)]).booked = none ∧
      (makeReservations [(7, Except.ok false)]).failures = [] ∧
      (makeReservations [(7, Except.ok false)]).printedFailures = none :=
  ⟨rfl, rfl, rfl⟩

/-- C1 (amended): when no candidate hour's attempt succeeds,
`make_reservations` books nothing and its `failures` list holds exactly
the candidate hours whose attempt raised an exception, in order; the
failure list is printed only when at least one attempt raised, and hours
whose attempt merely returned False are omitted. -/
theorem c1_amended_failures (atts : List (Nat × Except String Bool))
    (h : ∀ p ∈ atts, p.2 ≠ Except.ok true) :
    (makeReservations atts).booked = none ∧
      (makeReservations atts).failures = raisedHours atts ∧
      (makeReservations atts).printedFailures =
        (if (raisedHours atts).length > 0 then some (raisedHours atts) else none) := by
  have hgo := makeReservationsGo_noSuccess atts [] [] h
  simp only [List.nil_append] at hgo
  unfold makeReservations
  rw [hgo]
  exact ⟨rfl, rfl, rfl⟩

/-- Witness for the amended C1: candidate hours 7 and 8, where hour 7's
attempt returns False and hour 8's attempt raises; exactly hour 8 is
recorded and printed. -/
theorem c1_amended_failures_witness :
    (makeReservations [(7, Except.ok false), (8, Except.error "boom")]).booked = none ∧
      (makeReservations [(7, Except.ok false), (8, Except.error "boom")]).failures =
        raisedHours [(7, Except.ok false), (8, Except.error "boom")] ∧
      (makeReservations [(7, Except.ok false), (8, Except.error "boom")]).printedFailures =
        (if (raisedHours [(7, Except.ok false), (8, Except.error "boom")]).length > 0
          then some (raisedHours [(7, Except.ok false), (8, Except.error "boom")]) else none) :=
  c1_amended_failures [(7, Except.ok false), (8, Except.error "boom")] (by decide)

/-- C4: the hour-to-label conversion maps 1 to "1:00 AM", 12 to
"12:00 PM", 13 to "1:00 PM" and 23 to "11:00 PM"; generally every hour
from 1 to 11 yields "h:00 AM" and every hour from 13 to 23 yields
"(h-12):00 PM". -/
theorem c4_time_label (h : Nat) :
    timeText 1 = "1:00 AM" ∧ timeText 12 = "12:00 PM" ∧
      timeText 13 = "1:00 PM" ∧ timeText 23 = "11:00 PM" ∧
      (1 ≤ h ∧ h ≤ 11 → timeText h = toString h ++ ":00 AM") ∧
      (13 ≤ h ∧ h ≤ 23 → timeText h = toString (h - 12) ++ ":00 PM") := by
  refine ⟨by decide, by decide, by decide, by decide, ?_, ?_⟩
  · rintro ⟨h1, h2⟩
    have hlt : h < 12 := by omega
    simp [timeText, hlt]
  · rintro ⟨h1, h2⟩
    have hn : ¬ h < 12 := by omega
    have hne : h ≠ 12 := by omega
    have hmod : h % 12 = h - 12 := by omega
    simp [timeText, hn, hne, hmod]

/-- Witness for C4 at hours 5 and 19. -/
theorem c4_time_label_witness :
    (1 ≤ 5 ∧ 5 ≤ 11) ∧ timeText 5 = "5:00 AM" ∧
      (13 ≤ 19 ∧ 19 ≤ 23) ∧ timeText 19 = "7:00 PM" :=
  ⟨by decide, (c4_time_label 5).2.2.2.2.1 (by decide),
    by decide, (c4_time_label 19).2.2.2.2.2 (by decide)⟩

/-- C5: the candidate-times loop attempts hours strictly in list order and
the first hour whose attempt reaches the success banner terminates the run
immediately: the attempted hours are exactly the (success-free) front of
the list followed by the booked hour, and no later candidate is
attempted. -/
theorem c5_first_success_short_circuit
    (front post : List (Nat × Except String Bool)) (t : Nat)
    (h : ∀ p ∈ front, p.2 ≠ Except.ok true) :
    (makeReservations (front ++ (t, Except.ok true) :: post)).booked = some t ∧
      (makeReservations (front ++ (t, Except.ok true) :: post)).attempted =
        front.map Prod.fst ++ [t] := by
  have hgo := makeReservationsGo_firstSuccess t post front [] [] h
  simp only [List.nil_append] at hgo
  unfold makeReservations
  rw [hgo]
  exact ⟨rfl, rfl⟩

/-- Witness for C5: hours [7, 8, 9] where 7 fails, 8 succeeds: the run
books hour 8 and attempts only 7 and 8, never 9. -/
theorem c5_first_success_short_circuit_witness :
    (makeReservations ([(7, Except.ok false)] ++ (8, Except.ok true) :: [(9, Except.ok true)])).booked
        = some 8 ∧
      (makeReservations ([(7, Except.ok false)] ++ (8, Except.ok true) :: [(9, Except.ok true)])).attempted
        = [7, 8] :=
  c5_first_success_short_circuit [(7, Except.ok false)] [(9, Except.ok true)] 8 (by decide)

/-- C6: exception swallowing. First, a per-element failure inside
`_reserve_time`'s loop is swallowed: when every matching element's attempt
raises, the loop still completes normally returning False; second, once
the slot elements are found, `_reserve_time` never propagates an
exception out of the per-element loop; third, an hour whose whole
`_reserve_time` call raises never aborts the outer run: the next candidate
hour is still attempted and can be booked. -/
theorem c6_exception_swallowing :
    (∀ msgs : List String, attemptElements (msgs.map Except.error) = false) ∧
      (∀ (t : Nat) (slots : List (String × Except String Unit)) (e : String),
        reserveTimeE t (Except.ok slots) ≠ Except.error e) ∧
      (∀ (t t2 : Nat) (s : String) (rest : List (Nat × Except String Bool)),
        (makeReservations ((t, Except.error s) :: (t2, Except.ok true) :: rest)).booked = some t2 ∧
          (makeReservations ((t, Except.error s) :: (t2, Except.ok true) :: rest)).attempted
            = [t, t2]) := by
  refine ⟨?_, ?_, ?_⟩
  · intro msgs
    induction msgs with
    | nil => rfl
    | cons m rest ih => simpa [attemptElements] using ih
  · intro t slots e
    simp [reserveTimeE]
  · intro t t2 s rest
    exact ⟨rfl, rfl⟩

/-- C8: filter selection is idempotent. When a dropdown's displayed text
already shows the requested court type, or already shows the requested
duration (1 or 2 hours), `_set_options` performs no click on that
dropdown, does not reload the slot table, and raises nothing. -/
theorem c8_filter_idempotent (indoors : Bool) (duration : Nat) (options : List String)
    (h : duration = 1 ∨ duration = 2) :
    processDropdown indoors duration options (courtTypeText indoors) = ⟨false, false, false⟩ ∧
      processDropdown indoors duration options (durationText duration) = ⟨false, false, false⟩ := by
  rcases h with rfl | rfl <;> cases indoors <;> exact ⟨rfl, rfl⟩

/-- Witness for C8: indoor courts with a 2-hour duration. -/
theorem c8_filter_idempotent_witness :
    processDropdown true 2 [] (courtTypeText true) = ⟨false, false, false⟩ ∧
      processDropdown true 2 [] (durationText 2) = ⟨false, false, false⟩ :=
  c8_filter_idempotent true 2 [] (Or.inr rfl)

end TanglinTennis
